import Mathlib

/-!
Verification development for the SmoothSend SDK as documented in this repository.
The repository ships documentation only (API reference, integration guides, type
listings); it contains no implementation sources.  Every definition below is
therefore a model built from the documented contracts, marked
`Modelled from the spec:` with the piece of documentation it follows.
-/

namespace SmoothSend

/-- Modelled from the spec: the supported chain identifiers.  The integration
guide fixes them to exactly `avalanche` (Avalanche Fuji Testnet, the EVM-style
family) and `aptos-testnet` (Aptos Testnet, the Move-based family). -/
inductive SupportedChain where
  | avalanche
  | aptosTestnet
deriving DecidableEq

/-- Modelled from the spec: `TransferRequest` — sender address, recipient
address, token identifier, amount as a string in the token's smallest unit,
and the target chain. -/
structure TransferRequest where
  fromAddr : String
  toAddr : String
  token : String
  amount : String
  chain : SupportedChain
deriving DecidableEq

/-- Modelled from the spec: `SmoothSendError` — the generic error object every
SDK operation throws, carrying a message, a string `code`, an optional `chain`
and optional `details`. -/
structure SmoothSendError where
  message : String
  code : String
  chain : Option SupportedChain
  details : Option String
deriving DecidableEq

/-- Modelled from the spec: `TransferQuote` — echoes the amount, adds the
relayer fee, the total (amount + fee), a fee percentage and the token contract
address. -/
structure TransferQuote where
  amount : String
  relayerFee : String
  total : String
  feePercentage : Nat
  contractAddress : String
deriving DecidableEq

/-- Digit value of a character, for decoding the string-encoded smallest-unit
amounts ('0' has code 48). -/
def digitVal (c : Char) : Nat := c.toNat - 48

/-- Decode a string-encoded non-negative integer (most significant digit
first), the encoding the documentation uses for all amounts. -/
def strToNat (s : String) : Nat :=
  s.data.foldl (fun acc c => 10 * acc + digitVal c) 0

/-- The decimal digit character for a digit value below ten. -/
def digitChar (d : Nat) : Char := Char.ofNat (48 + d)

/-- Decimal digit expansion of a natural number, most significant digit first,
with explicit fuel so that the recursion is structural. -/
def natToStrAux (fuel n : Nat) : List Char :=
  match fuel with
  | 0 => []
  | fuel + 1 =>
    if n = 0 then [] else natToStrAux fuel (n / 10) ++ [digitChar (n % 10)]

/-- Encode a natural number as a decimal string, the string encoding the
relayer uses for fees and totals. -/
def natToStr (n : Nat) : String :=
  if n = 0 then "0" else String.mk (natToStrAux n n)

/-- Modelled from the spec: the documented amount invariant — an amount must
match the all-digits pattern (the troubleshooting guide shows the rejection
message for the required pattern of one or more digits and nothing else). -/
def isDigitStr (s : String) : Bool :=
  !s.data.isEmpty && s.data.all Char.isDigit

/-- Modelled from the spec: the relayer-side and chain-side facts a quote
request depends on — address validity per the chain's format, token support,
the sender's balance in smallest units, reachability of the relayer, the fee
the relayer quotes, the fee percentage and the token contract address.  All of
these live outside the SDK (the relayer is an external service), so they enter
the model as an explicit environment. -/
structure QuoteEnv where
  fromValid : Bool
  toValid : Bool
  tokenSupported : Bool
  balance : Nat
  relayerReachable : Bool
  relayerFee : Nat
  feePercentage : Nat
  contractAddress : String
deriving DecidableEq

/-- Modelled from the spec: the documented code for a quote request rejected by
the relayer itself — `QUOTE_ERROR` (failed to get transfer quote) on EVM
chains and `APTOS_QUOTE_ERROR` (failed to get quote from the Aptos relayer) on
Aptos chains. -/
def quoteFailCode : SupportedChain → String
  | .avalanche => "QUOTE_ERROR"
  | .aptosTestnet => "APTOS_QUOTE_ERROR"

/-- Modelled from the spec: `getQuote()` — validates the addresses, contacts
the chain's relayer, and returns a `TransferQuote` whose `amount` echoes the
request, whose `relayerFee` is the relayer's quoted fee and whose `total` is
amount + fee, both string-encoded; a malformed amount is rejected by the
relayer's schema check (the troubleshooting guide shows the all-digits pattern
rejection), an unsupported token, an insufficient balance for amount + fee and
an unreachable relayer fail with their documented codes. -/
def getQuote (req : TransferRequest) (env : QuoteEnv) :
    Except SmoothSendError TransferQuote :=
  if !env.fromValid || !env.toValid then
    .error ⟨"Invalid wallet address format", "INVALID_ADDRESS", some req.chain, none⟩
  else if !env.relayerReachable then
    .error ⟨"Connection issue with relayer", "NETWORK_ERROR", some req.chain, none⟩
  else if !isDigitStr req.amount then
    .error ⟨"amount fails to match the required pattern of digits only",
            quoteFailCode req.chain, some req.chain, none⟩
  else if !env.tokenSupported then
    .error ⟨"Token not supported on this chain", "UNSUPPORTED_TOKEN", some req.chain, none⟩
  else if env.balance < strToNat req.amount + env.relayerFee then
    .error ⟨"Insufficient token balance", "INSUFFICIENT_BALANCE", some req.chain, none⟩
  else
    .ok ⟨req.amount, natToStr env.relayerFee,
         natToStr (strToNat req.amount + env.relayerFee),
         env.feePercentage, env.contractAddress⟩

/-- Modelled from the spec: `TransferResult` — success flag, transaction hash,
optional block number, gas used and block-explorer URL. -/
structure TransferResult where
  success : Bool
  txHash : String
  blockNumber : Option Nat
  gasUsed : Option String
  explorerUrl : Option String
deriving DecidableEq

/-- Modelled from the spec: `TransferEventType` — the five documented
transfer-state transitions. -/
inductive TransferEventType where
  | transfer_initiated
  | transfer_signed
  | transfer_submitted
  | transfer_confirmed
  | transfer_failed
deriving DecidableEq

/-- Modelled from the spec: `TransferEvent` — the event delivered to listeners
at a transfer-state transition: type, event-specific data, timestamp and the
chain the event occurred on. -/
structure TransferEvent where
  type : TransferEventType
  data : String
  timestamp : Nat
  chain : SupportedChain
deriving DecidableEq

/-- Modelled from the spec: the in-process state of the event system — the
list of registered listeners (identified here by a numeric id) together with
the record of deliveries made so far, in delivery order. -/
structure SdkState where
  listeners : List Nat
  delivered : List (Nat × TransferEvent)
deriving DecidableEq

/-- Modelled from the spec: the synchronous broadcast — notifying an event
appends one delivery per currently registered listener, in registration
order, before anything else happens. -/
def emitEvent (st : SdkState) (e : TransferEvent) : SdkState :=
  ⟨st.listeners, st.delivered ++ st.listeners.map (fun l => (l, e))⟩

/-- Modelled from the spec: `addEventListener()` — registers a listener on the
in-process listener list. -/
def addEventListener (st : SdkState) (l : Nat) : SdkState :=
  ⟨st.listeners ++ [l], st.delivered⟩

/-- Modelled from the spec: `removeEventListener()` — removes the given
listener from the listener list (removal is by identity; every registration of
that listener is dropped). -/
def removeEventListener (st : SdkState) (l : Nat) : SdkState :=
  ⟨st.listeners.filter (fun x => !(x == l)), st.delivered⟩

/-- The events delivered to one listener, in delivery order. -/
def deliveredTo (st : SdkState) (l : Nat) : List TransferEvent :=
  (st.delivered.filter (fun p => p.1 == l)).map Prod.snd

/-- One event delivered to every listener of a list, in registration order. -/
def broadcast (ls : List Nat) (e : TransferEvent) : List (Nat × TransferEvent) :=
  ls.map (fun l => (l, e))

/-- A sequence of events, each broadcast to the whole listener list in order:
the delivery record a run of synchronous transitions leaves behind. -/
def broadcastAll (ls : List Nat) : List TransferEvent → List (Nat × TransferEvent)
  | [] => []
  | e :: es => broadcast ls e ++ broadcastAll ls es

/-- Modelled from the spec: `SignatureData` — the ecosystem-specific signable
payload: EIP-712 typed data (domain, types, message) for EVM chains, opaque
transaction bytes for Move-based chains. -/
inductive SignatureData where
  | eip712 (domain types message : String)
  | aptosPayload (transactionBytes : String)
deriving DecidableEq

/-- Modelled from the spec: the documented signature type tag per chain
ecosystem — EIP-712 on EVM chains, Ed25519 on Aptos chains. -/
def signatureTypeFor : SupportedChain → String
  | .avalanche => "EIP712"
  | .aptosTestnet => "Ed25519"

/-- Modelled from the spec: `prepareTransfer()` — produces the
ecosystem-specific signable payload for a request and its quote; the payload
contents are abstracted to the fields the documentation names. -/
def prepareTransfer (req : TransferRequest) (quote : TransferQuote) : SignatureData :=
  match req.chain with
  | .avalanche =>
      .eip712 "SmoothSend" "Transfer"
        (req.fromAddr ++ ">" ++ req.toAddr ++ ":" ++ quote.total)
  | .aptosTestnet =>
      .aptosPayload (req.fromAddr ++ ">" ++ req.toAddr ++ ":" ++ quote.total)

/-- The signable message carried by a payload. -/
def payloadOf : SignatureData → String
  | .eip712 _ _ m => m
  | .aptosPayload b => b

/-- Modelled from the spec: the wallet's side of the signing step — whether
the user approves, and the signature the wallet produces when they do.  The
wallet is external to the SDK, so it enters the model as an environment. -/
structure SignEnv where
  userApproves : Bool
  signature : String
deriving DecidableEq

/-- Modelled from the spec: `SignedTransferData` — the signature, the transfer
data it covers, and the signature type tag. -/
structure SignedTransferData where
  signature : String
  transferData : String
  signatureType : String
deriving DecidableEq

/-- Modelled from the spec: the wallet-signing step of the `transfer()` flow —
returns signed data, or fails with the documented `SIGNATURE_REJECTED` code
when the user cancels. -/
def signStep (senv : SignEnv) (req : TransferRequest) (sd : SignatureData) :
    Except SmoothSendError SignedTransferData :=
  if senv.userApproves then
    .ok ⟨senv.signature, payloadOf sd, signatureTypeFor req.chain⟩
  else
    .error ⟨"User rejected signature", "SIGNATURE_REJECTED", some req.chain, none⟩

/-- Modelled from the spec: the relayer's side of execution — whether the
relayer accepts and lands the transaction, and the resulting hash, block
number and explorer URL.  The relayer is external, so it enters the model as
an environment. -/
structure ExecEnv where
  relayerAccepts : Bool
  txHash : String
  blockNumber : Nat
  explorerUrl : String
deriving DecidableEq

/-- Modelled from the spec: `executeTransfer()` — submits a signed transfer to
the relayer and returns the final `TransferResult`, or fails with the
documented `TRANSACTION_FAILED` code when the transaction fails on chain. -/
def executeTransfer (signedData : SignedTransferData) (chain : SupportedChain)
    (eenv : ExecEnv) : Except SmoothSendError TransferResult :=
  if eenv.relayerAccepts then
    .ok ⟨true, eenv.txHash, some eenv.blockNumber, none, some eenv.explorerUrl⟩
  else
    .error ⟨"Transaction failed on chain", "TRANSACTION_FAILED", some chain, none⟩

/-- The four internal steps the documentation fixes for `transfer()`. -/
inductive FlowStep where
  | quote
  | prepare
  | sign
  | execute
deriving DecidableEq

/-- Outcome of one `transfer()` call: its result, the event-system state it
leaves behind, and the internal steps it reached, in execution order. -/
structure FlowOutcome where
  result : Except SmoothSendError TransferResult
  state : SdkState
  steps : List FlowStep

/-- The `transfer_failed` event emitted when the flow aborts. -/
def failedEvent (chain : SupportedChain) (now : Nat) (code : String) : TransferEvent :=
  ⟨.transfer_failed, code, now, chain⟩

/-- Modelled from the spec: `transfer()` — the orchestrating facade. It runs
`getQuote()`, then `prepareTransfer()`, then wallet signing, then
`executeTransfer()`, in that fixed order; it notifies the registered listeners
synchronously at each state transition (`transfer_initiated` at the start,
`transfer_signed` and `transfer_submitted` after signing, `transfer_confirmed`
on success, `transfer_failed` on an abort), and returns the result of the
execute step. -/
def transfer (req : TransferRequest) (qenv : QuoteEnv) (senv : SignEnv)
    (eenv : ExecEnv) (now : Nat) (st : SdkState) : FlowOutcome :=
  let st0 := emitEvent st ⟨.transfer_initiated, "", now, req.chain⟩
  match getQuote req qenv with
  | .error e => ⟨.error e, emitEvent st0 (failedEvent req.chain now e.code), [.quote]⟩
  | .ok q =>
    let sd := prepareTransfer req q
    match signStep senv req sd with
    | .error e =>
        ⟨.error e, emitEvent st0 (failedEvent req.chain now e.code),
         [.quote, .prepare, .sign]⟩
    | .ok signed =>
      let st1 := emitEvent st0 ⟨.transfer_signed, "", now, req.chain⟩
      let st2 := emitEvent st1 ⟨.transfer_submitted, "", now, req.chain⟩
      match executeTransfer signed req.chain eenv with
      | .error e =>
          ⟨.error e, emitEvent st2 (failedEvent req.chain now e.code),
           [.quote, .prepare, .sign, .execute]⟩
      | .ok r =>
          ⟨.ok r, emitEvent st2 ⟨.transfer_confirmed, "", now, req.chain⟩,
           [.quote, .prepare, .sign, .execute]⟩

/-- Modelled from the spec: `BatchTransferRequest` — a list of transfers and
the chain to run them on. -/
structure BatchTransferRequest where
  transfers : List TransferRequest
  chain : SupportedChain

/-- The result of one successfully landed transfer inside a batch. -/
def execResult (e : ExecEnv) : TransferResult :=
  ⟨true, e.txHash, some e.blockNumber, none, some e.explorerUrl⟩

/-- Modelled from the spec: the Aptos side of `batchTransfer()` — sequential,
non-atomic execution: the i-th transfer is submitted on its own and its
outcome reported in the i-th result (the documentation promises error
reporting for each transfer in the batch), independent of the others. -/
def aptosSeqResults (ts : List TransferRequest) (envs : Nat → ExecEnv) :
    List TransferResult :=
  (List.range ts.length).map fun i =>
    if (envs i).relayerAccepts then execResult (envs i)
    else ⟨false, "", none, none, none⟩

/-- Modelled from the spec: `batchTransfer()` — on Avalanche, a native batch:
all transfers land atomically in one transaction (one shared hash) or the call
fails as a whole; on Aptos, the fallback behavior of sequential per-transfer
execution.  In both cases one `TransferResult` per transfer is returned. -/
def batchTransfer (breq : BatchTransferRequest) (batchEnv : ExecEnv)
    (envs : Nat → ExecEnv) : Except SmoothSendError (List TransferResult) :=
  match breq.chain with
  | .avalanche =>
    if batchEnv.relayerAccepts then
      .ok (breq.transfers.map fun _ => execResult batchEnv)
    else
      .error ⟨"Transaction failed on chain", "TRANSACTION_FAILED", some .avalanche, none⟩
  | .aptosTestnet => .ok (aptosSeqResults breq.transfers envs)

/-- Modelled from the spec: `TokenBalance` — token identifier, balance in
smallest unit, decimals, symbol and name. -/
structure TokenBalance where
  token : String
  balance : String
  decimals : Nat
  symbol : String
  name : String
deriving DecidableEq

/-- Modelled from the spec: the chain-side facts a balance query depends on —
the balances the chain reports for the queried address. -/
structure BalanceEnv where
  balances : List TokenBalance
deriving DecidableEq

/-- Whether a character is a hexadecimal digit. -/
def isHexChar (c : Char) : Bool :=
  c.isDigit || ('a' ≤ c && c ≤ 'f') || ('A' ≤ c && c ≤ 'F')

/-- Modelled from the spec: `validateAddress()` — format validation per chain:
an EVM address is 0x followed by 40 hex characters; an Aptos address is 0x
followed by up to 64 hex characters. -/
def validateAddress (chain : SupportedChain) (s : String) : Bool :=
  match chain with
  | .avalanche =>
      s.startsWith "0x" && s.length == 42 && (s.drop 2).data.all isHexChar
  | .aptosTestnet =>
      s.startsWith "0x" && decide (2 < s.length) && decide (s.length ≤ 66)
        && (s.drop 2).data.all isHexChar

/-- Modelled from the spec: the common capability set of a chain adapter —
quote, prepare, execute, balance and validate. -/
structure ChainAdapter where
  quote : TransferRequest → QuoteEnv → Except SmoothSendError TransferQuote
  prepare : TransferRequest → TransferQuote → SignatureData
  execute : SignedTransferData → ExecEnv → Except SmoothSendError TransferResult
  getBalance : String → BalanceEnv → Except SmoothSendError (List TokenBalance)
  validate : String → Bool

/-- Modelled from the spec: the documented error thrown when balances are
queried on a chain without balance support. -/
def balanceNotSupportedError (chain : SupportedChain) : SmoothSendError :=
  ⟨"Balance functionality not available for this chain", "BALANCE_NOT_SUPPORTED",
   some chain, none⟩

/-- Modelled from the spec: the chain adapters.  Both wire the common quote,
prepare, execute and validate capabilities; balance queries are documented as
available on Aptos chains only — the EVM (Avalanche) adapter throws
`BALANCE_NOT_SUPPORTED`. -/
def adapterFor (chain : SupportedChain) : ChainAdapter :=
  ⟨fun req env => getQuote req env,
   fun req quote => prepareTransfer req quote,
   fun signed env => executeTransfer signed chain env,
   fun addr env =>
     match chain with
     | .avalanche => .error (balanceNotSupportedError .avalanche)
     | .aptosTestnet =>
        let _ := addr
        .ok env.balances,
   fun addr => validateAddress chain addr⟩

/-- Modelled from the spec: the native-currency metadata of a chain. -/
structure NativeCurrency where
  name : String
  symbol : String
  decimals : Nat
deriving DecidableEq

/-- Modelled from the spec: `ChainConfig` — the static descriptor of a
supported network. -/
structure ChainConfig where
  name : String
  displayName : String
  chainId : Nat
  rpcUrl : String
  relayerUrl : String
  explorerUrl : String
  tokens : List String
  nativeCurrency : NativeCurrency
deriving DecidableEq

/-- Modelled from the spec: the dynamically fetched configuration variant —
up-to-date relayer URL, supported tokens and RPC endpoint, each optional so
that absent fields fall back to the static value on merge. -/
structure DynamicChainConfig where
  relayerUrl : Option String
  tokens : Option (List String)
  rpcUrl : Option String
deriving DecidableEq

/-- Modelled from the spec: merging the static built-in configuration with a
dynamically fetched one — a dynamic field overrides the static value when
present. -/
def mergeConfig (s : ChainConfig) (d : DynamicChainConfig) : ChainConfig :=
  ⟨s.name, s.displayName, s.chainId,
   d.rpcUrl.getD s.rpcUrl,
   d.relayerUrl.getD s.relayerUrl,
   s.explorerUrl,
   d.tokens.getD s.tokens,
   s.nativeCurrency⟩

/-- Modelled from the spec: the configuration cache — at most one fetched
configuration together with the time it was fetched. -/
structure ConfigCache where
  entry : Option (DynamicChainConfig × Nat)
deriving DecidableEq

/-- Modelled from the spec: configuration resolution.  With dynamic
configuration disabled the static configuration is used as is.  Otherwise a
cached fetch younger than the TTL is merged and reused; an expired or missing
cache triggers a fetch whose result, when it arrives, is merged and cached
with the current time; when the fetch fails (`none`) the resolver falls back
to the static configuration, so resolution always yields a configuration. -/
def resolveChainConfig (staticCfg : ChainConfig) (useDynamic : Bool)
    (ttl now : Nat) (cache : ConfigCache) (fetched : Option DynamicChainConfig) :
    ChainConfig × ConfigCache :=
  if !useDynamic then (staticCfg, cache)
  else
    match cache.entry with
    | some (d, t) =>
      if now < t + ttl then (mergeConfig staticCfg d, cache)
      else
        match fetched with
        | some d' => (mergeConfig staticCfg d', ⟨some (d', now)⟩)
        | none => (staticCfg, cache)
    | none =>
      match fetched with
      | some d' => (mergeConfig staticCfg d', ⟨some (d', now)⟩)
      | none => (staticCfg, cache)

/-! ### Concrete instances used by the witnesses -/

/-- A well-formed Avalanche transfer request used as a witness input. -/
def reqW : TransferRequest := ⟨"0xa", "0xb", "USDC", "25", .avalanche⟩

/-- A request whose amount is in decimal form, violating the all-digits
pattern. -/
def reqDecW : TransferRequest := ⟨"0xa", "0xb", "USDC", "0.5", .avalanche⟩

/-- A quote environment in which everything succeeds: valid addresses,
supported token, ample balance, reachable relayer quoting a fee of 7. -/
def qenvOkW : QuoteEnv := ⟨true, true, true, 1000, true, 7, 1, "0xc"⟩

/-- A quote environment whose relayer is unreachable. -/
def qenvDownW : QuoteEnv := ⟨true, true, true, 1000, false, 7, 1, "0xc"⟩

/-- A signing environment in which the user approves. -/
def senvOkW : SignEnv := ⟨true, "0xsig"⟩

/-- An execution environment in which the relayer lands the transaction. -/
def eenvOkW : ExecEnv := ⟨true, "0xhash", 12, "https://snowtrace.io/tx/0xhash"⟩

/-- An execution environment in which the transaction fails on chain. -/
def eenvFailW : ExecEnv := ⟨false, "", 0, ""⟩

/-- An event-system state with one registered listener. -/
def stW : SdkState := ⟨[3], []⟩

/-- A static chain configuration used as a witness input. -/
def cfgW : ChainConfig :=
  ⟨"avalanche", "Avalanche Fuji", 43113, "https://rpc", "https://relayer",
   "https://explorer", ["USDC", "USDT", "AVAX"], ⟨"Avalanche", "AVAX", 18⟩⟩

/-- A dynamically fetched configuration used as a witness input. -/
def dynW : DynamicChainConfig := ⟨some "https://relayer2", some ["USDC"], none⟩

/-- The error `getQuote` raises when the relayer is unreachable. -/
def eNetW : SmoothSendError :=
  ⟨"Connection issue with relayer", "NETWORK_ERROR", some .avalanche, none⟩

/-- The error the execute step raises when the transaction fails on chain. -/
def eTxW : SmoothSendError :=
  ⟨"Transaction failed on chain", "TRANSACTION_FAILED", some .avalanche, none⟩

/-- A signed transfer used as a witness input. -/
def signedW : SignedTransferData := ⟨"0xsig", "payload", "EIP712"⟩

/-! ### Decimal round-trip lemmas -/

theorem digitChar_toNat (d : Nat) (hd : d < 10) : (digitChar d).toNat = 48 + d := by
  interval_cases d <;> decide

theorem strToNat_mk_append (l : List Char) (c : Char) :
    (String.mk (l ++ [c])).data.foldl (fun acc x => 10 * acc + digitVal x) 0
      = 10 * ((String.mk l).data.foldl (fun acc x => 10 * acc + digitVal x) 0)
          + digitVal c := by
  simp [List.foldl_append]

theorem natToStrAux_decode (fuel : Nat) :
    ∀ n : Nat, n < 10 ^ fuel →
      (natToStrAux fuel n).foldl (fun acc x => 10 * acc + digitVal x) 0 = n := by
  induction fuel with
  | zero =>
    intro n hn
    simp [pow_zero, Nat.lt_one_iff] at hn
    simp [natToStrAux, hn]
  | succ fuel ih =>
    intro n hn
    by_cases h0 : n = 0
    · simp [natToStrAux, h0]
    · have hdiv : n / 10 < 10 ^ fuel := by
        have h10 : (0:Nat) < 10 := by norm_num
        rw [Nat.div_lt_iff_lt_mul h10]
        calc n < 10 ^ (fuel + 1) := hn
        _ = 10 ^ fuel * 10 := by ring
      have hrec := ih (n / 10) hdiv
      have hmod : n % 10 < 10 := Nat.mod_lt _ (by norm_num)
      simp only [natToStrAux, h0, if_false]
      rw [List.foldl_append]
      simp only [List.foldl_cons, List.foldl_nil, hrec]
      rw [digitVal, digitChar_toNat _ hmod]
      omega

theorem strToNat_natToStr (n : Nat) : strToNat (natToStr n) = n := by
  by_cases h0 : n = 0
  · simp [natToStr, strToNat, h0, digitVal]
  · have hn : n < 10 ^ n := Nat.lt_pow_self (by norm_num) n
    simp only [natToStr, h0, if_false, strToNat]
    exact natToStrAux_decode n n hn

/-! ### Claims about quoting -/

/-- C2: every `TransferQuote` returned by `getQuote()` echoes the request's
amount in its `amount` field, and its `total` field decodes to exactly the
integer sum of its `amount` and `relayerFee` fields, all three string-encoded
in the token's smallest unit. -/
theorem getQuote_total_exact (req : TransferRequest) (env : QuoteEnv)
    (q : TransferQuote) (h : getQuote req env = .ok q) :
    q.amount = req.amount ∧
    strToNat q.total = strToNat q.amount + strToNat q.relayerFee := by
  unfold getQuote at h
  repeat' split at h
  all_goals first
    | exact Except.noConfusion h
    | (injection h with h; subst h
       refine ⟨rfl, ?_⟩
       simp [strToNat_natToStr])

theorem getQuote_total_exact_witness :
    (⟨"25", "7", "32", 1, "0xc"⟩ : TransferQuote).amount = reqW.amount ∧
    strToNat (⟨"25", "7", "32", 1, "0xc"⟩ : TransferQuote).total
      = strToNat (⟨"25", "7", "32", 1, "0xc"⟩ : TransferQuote).amount
        + strToNat (⟨"25", "7", "32", 1, "0xc"⟩ : TransferQuote).relayerFee :=
  getQuote_total_exact reqW qenvOkW ⟨"25", "7", "32", 1, "0xc"⟩ rfl

/-- C3: a request whose amount contains a decimal point or any other
non-digit character is rejected: `getQuote()` fails, and `transfer()` fails
right after its quote step, never reaching prepare, sign or execute. -/
theorem nondigit_amount_rejected (req : TransferRequest) (qenv : QuoteEnv)
    (senv : SignEnv) (eenv : ExecEnv) (now : Nat) (st : SdkState)
    (h : req.amount.data.all Char.isDigit = false) :
    (∃ e, getQuote req qenv = .error e) ∧
    (∃ e, (transfer req qenv senv eenv now st).result = .error e) ∧
    (transfer req qenv senv eenv now st).steps = [.quote] := by
  have hd : isDigitStr req.amount = false := by
    simp [isDigitStr, h]
  have hq : ∃ e, getQuote req qenv = .error e := by
    unfold getQuote
    split
    · exact ⟨_, rfl⟩
    · split
      · exact ⟨_, rfl⟩
      · rw [hd]
        exact ⟨_, rfl⟩
  obtain ⟨e, he⟩ := hq
  refine ⟨⟨e, he⟩, ⟨e, ?_⟩, ?_⟩
  · simp [transfer, he]
  · simp [transfer, he]

theorem nondigit_amount_rejected_witness :
    (∃ e, getQuote reqDecW qenvOkW = .error e) ∧
    (∃ e, (transfer reqDecW qenvOkW senvOkW eenvOkW 5 stW).result = .error e) ∧
    (transfer reqDecW qenvOkW senvOkW eenvOkW 5 stW).steps = [.quote] :=
  nondigit_amount_rejected reqDecW qenvOkW senvOkW eenvOkW 5 stW (by decide)

/-- C4 fails as stated: a quote request whose amount is in decimal form is
rejected with the documented quote-failure code `QUOTE_ERROR`, which lies
outside the enumerated four-code set. -/
theorem getQuote_code_outside_enumerated_set :
    getQuote reqDecW qenvOkW =
      .error ⟨"amount fails to match the required pattern of digits only",
              "QUOTE_ERROR", some .avalanche, none⟩ ∧
    "QUOTE_ERROR" ∉ ["INSUFFICIENT_BALANCE", "UNSUPPORTED_TOKEN",
                     "INVALID_ADDRESS", "NETWORK_ERROR"] := by
  exact ⟨rfl, by decide⟩

/-- C4 amended: whenever `getQuote()` fails, its code is one of the four
enumerated codes, or one of the documented quote-failure codes `QUOTE_ERROR`
(EVM chains) and `APTOS_QUOTE_ERROR` (Aptos chains) raised when the relayer
rejects the quote request itself. -/
theorem getQuote_error_codes (req : TransferRequest) (env : QuoteEnv)
    (e : SmoothSendError) (h : getQuote req env = .error e) :
    e.code ∈ ["INSUFFICIENT_BALANCE", "UNSUPPORTED_TOKEN", "INVALID_ADDRESS",
              "NETWORK_ERROR", "QUOTE_ERROR", "APTOS_QUOTE_ERROR"] := by
  unfold getQuote at h
  repeat' split at h
  all_goals first
    | exact Except.noConfusion h
    | (injection h with h; subst h; cases req.chain <;> simp [quoteFailCode])

theorem getQuote_error_codes_witness :
    (⟨"Connection issue with relayer", "NETWORK_ERROR",
      some .avalanche, none⟩ : SmoothSendError).code
      ∈ ["INSUFFICIENT_BALANCE", "UNSUPPORTED_TOKEN", "INVALID_ADDRESS",
         "NETWORK_ERROR", "QUOTE_ERROR", "APTOS_QUOTE_ERROR"] :=
  getQuote_error_codes reqW qenvDownW
    ⟨"Connection issue with relayer", "NETWORK_ERROR", some .avalanche, none⟩ rfl

/-! ### Claims about the transfer flow and the event system -/

/-- C1: a successful `transfer()` runs its four internal steps in the fixed
order quote, prepare, sign, execute; the value it returns is the result of the
execute step applied to the signed payload the flow produced; and each state
transition of the flow was broadcast to the listener list, in order
initiated, signed, submitted, confirmed. -/
theorem transfer_flow_order (req : TransferRequest) (qenv : QuoteEnv)
    (senv : SignEnv) (eenv : ExecEnv) (now : Nat) (st : SdkState)
    (r : TransferResult)
    (h : (transfer req qenv senv eenv now st).result = .ok r) :
    (transfer req qenv senv eenv now st).steps
      = [.quote, .prepare, .sign, .execute] ∧
    (∃ q signed, getQuote req qenv = .ok q ∧
        signStep senv req (prepareTransfer req q) = .ok signed ∧
        executeTransfer signed req.chain eenv = .ok r) ∧
    (∃ tr, (transfer req qenv senv eenv now st).state.delivered
          = st.delivered ++ broadcastAll st.listeners tr ∧
        tr.map TransferEvent.type
          = [.transfer_initiated, .transfer_signed,
             .transfer_submitted, .transfer_confirmed]) := by
  cases hq : getQuote req qenv with
  | error e => simp [transfer, hq] at h
  | ok q =>
    cases hs : signStep senv req (prepareTransfer req q) with
    | error e => simp [transfer, hq, hs] at h
    | ok signed =>
      cases hx : executeTransfer signed req.chain eenv with
      | error e => simp [transfer, hq, hs, hx] at h
      | ok r' =>
        have hr : r' = r := by simpa [transfer, hq, hs, hx] using h
        subst hr
        refine ⟨by simp [transfer, hq, hs, hx], ⟨q, signed, rfl, hs, hx⟩, ?_⟩
        refine ⟨[⟨.transfer_initiated, "", now, req.chain⟩,
                 ⟨.transfer_signed, "", now, req.chain⟩,
                 ⟨.transfer_submitted, "", now, req.chain⟩,
                 ⟨.transfer_confirmed, "", now, req.chain⟩], ?_, by simp⟩
        simp [transfer, hq, hs, hx, emitEvent, broadcastAll, broadcast,
              List.append_assoc]

theorem transfer_flow_order_witness :
    (transfer reqW qenvOkW senvOkW eenvOkW 5 stW).steps
      = [.quote, .prepare, .sign, .execute] :=
  (transfer_flow_order reqW qenvOkW senvOkW eenvOkW 5 stW
      ⟨true, "0xhash", some 12, none, some "https://snowtrace.io/tx/0xhash"⟩
      rfl).1

/-- C8: every run of `transfer()` leaves the listener list unchanged and, at
each state transition, notifies every listener registered at call time before
the next transition happens — the delivery record grows by exactly one
broadcast of the transition's event to the whole listener list, and the
transition traces are the documented ones: initiated-signed-submitted-confirmed
on success, ending in a failed event on an abort. -/
theorem transfer_notifies_listeners (req : TransferRequest) (qenv : QuoteEnv)
    (senv : SignEnv) (eenv : ExecEnv) (now : Nat) (st : SdkState) :
    ∃ tr : List TransferEvent,
      (transfer req qenv senv eenv now st).state.listeners = st.listeners ∧
      (transfer req qenv senv eenv now st).state.delivered
        = st.delivered ++ broadcastAll st.listeners tr ∧
      (tr.map TransferEvent.type
          = [.transfer_initiated, .transfer_signed,
             .transfer_submitted, .transfer_confirmed] ∨
       tr.map TransferEvent.type = [.transfer_initiated, .transfer_failed] ∨
       tr.map TransferEvent.type
          = [.transfer_initiated, .transfer_signed,
             .transfer_submitted, .transfer_failed]) := by
  cases hq : getQuote req qenv with
  | error e =>
    refine ⟨[⟨.transfer_initiated, "", now, req.chain⟩,
             failedEvent req.chain now e.code], ?_, ?_, ?_⟩
    · simp [transfer, hq, emitEvent]
    · simp [transfer, hq, emitEvent, broadcastAll, broadcast, List.append_assoc]
    · simp [failedEvent]
  | ok q =>
    cases hs : signStep senv req (prepareTransfer req q) with
    | error e =>
      refine ⟨[⟨.transfer_initiated, "", now, req.chain⟩,
               failedEvent req.chain now e.code], ?_, ?_, ?_⟩
      · simp [transfer, hq, hs, emitEvent]
      · simp [transfer, hq, hs, emitEvent, broadcastAll, broadcast,
              List.append_assoc]
      · simp [failedEvent]
    | ok signed =>
      cases hx : executeTransfer signed req.chain eenv with
      | error e =>
        refine ⟨[⟨.transfer_initiated, "", now, req.chain⟩,
                 ⟨.transfer_signed, "", now, req.chain⟩,
                 ⟨.transfer_submitted, "", now, req.chain⟩,
                 failedEvent req.chain now e.code], ?_, ?_, ?_⟩
        · simp [transfer, hq, hs, hx, emitEvent]
        · simp [transfer, hq, hs, hx, emitEvent, broadcastAll, broadcast,
                List.append_assoc]
        · simp [failedEvent]
      | ok r =>
        refine ⟨[⟨.transfer_initiated, "", now, req.chain⟩,
                 ⟨.transfer_signed, "", now, req.chain⟩,
                 ⟨.transfer_submitted, "", now, req.chain⟩,
                 ⟨.transfer_confirmed, "", now, req.chain⟩], ?_, ?_, ?_⟩
        · simp [transfer, hq, hs, hx, emitEvent]
        · simp [transfer, hq, hs, hx, emitEvent, broadcastAll, broadcast,
                List.append_assoc]
        · simp

/-- An emission delivers nothing to a listener that is not registered. -/
theorem deliveredTo_emit_not_registered (st : SdkState) (e : TransferEvent)
    (l : Nat) (h : l ∉ st.listeners) :
    deliveredTo (emitEvent st e) l = deliveredTo st l := by
  simp only [deliveredTo, emitEvent, List.filter_append, List.map_append]
  have hnil : (st.listeners.map (fun x => (x, e))).filter
      (fun p => p.1 == l) = [] := by
    rw [List.filter_eq_nil_iff]
    intro p hp
    simp only [List.mem_map] at hp
    obtain ⟨x, hx, rfl⟩ := hp
    simp only [beq_iff_eq]
    exact fun hxl => h (hxl ▸ hx)
  rw [hnil]
  simp

/-- C10 fails as stated: in a state where listener 7 is already registered,
registering it a second time and then removing it leaves an empty listener
list instead of restoring the prior single registration. -/
theorem addRemove_not_restoring :
    (removeEventListener (addEventListener ⟨[7], []⟩ 7) 7).listeners = [] ∧
    (⟨[7], []⟩ : SdkState).listeners = [7] :=
  ⟨rfl, rfl⟩

/-- C10 amended: for a listener not currently registered, `addEventListener`
followed by `removeEventListener` restores the listener-set state exactly;
afterwards the listener receives nothing from later dispatches, and the
registrations of all other listeners are as before. -/
theorem addRemove_fresh_listener (st : SdkState) (l : Nat)
    (h : l ∉ st.listeners) :
    removeEventListener (addEventListener st l) l = st ∧
    ∀ e, deliveredTo
        (emitEvent (removeEventListener (addEventListener st l) l) e) l
      = deliveredTo st l := by
  have hfilter : (st.listeners ++ [l]).filter (fun x => !(x == l))
      = st.listeners := by
    rw [List.filter_append]
    have h2 : List.filter (fun x => !(x == l)) [l] = [] := by simp
    rw [h2, List.append_nil]
    apply List.filter_eq_self.mpr
    intro a ha
    simp only [Bool.not_eq_true', beq_eq_false_iff_ne, ne_eq]
    exact fun hal => h (hal ▸ ha)
  have hrestore : removeEventListener (addEventListener st l) l = st := by
    show (⟨(st.listeners ++ [l]).filter (fun x => !(x == l)),
          st.delivered⟩ : SdkState) = st
    rw [hfilter]
  refine ⟨hrestore, fun e => ?_⟩
  rw [hrestore]
  exact deliveredTo_emit_not_registered st e l h

theorem addRemove_fresh_listener_witness :
    removeEventListener (addEventListener stW 7) 7 = stW :=
  (addRemove_fresh_listener stW 7 (by decide)).1

/-! ### Claims about batching, adapters and configuration -/

/-- C5: `batchTransfer()` returns one `TransferResult` per contained transfer;
on Avalanche the batch is native-atomic — either the whole call fails and no
per-transfer results exist, or every transfer lands in one shared transaction;
on Aptos the transfers execute sequentially and non-atomically, the i-th
result reflecting the i-th submission alone. -/
theorem batchTransfer_chain_semantics (breq : BatchTransferRequest)
    (be : ExecEnv) (envs : Nat → ExecEnv) :
    match breq.chain with
    | .avalanche =>
        if be.relayerAccepts then
          ∃ rs, batchTransfer breq be envs = .ok rs ∧
            rs.length = breq.transfers.length ∧
            ∀ i : Fin rs.length,
              (rs.get i).success = true ∧ (rs.get i).txHash = be.txHash
        else
          ∃ e, batchTransfer breq be envs = .error e ∧
            e.code = "TRANSACTION_FAILED"
    | .aptosTestnet =>
        ∃ rs, batchTransfer breq be envs = .ok rs ∧
          rs.length = breq.transfers.length ∧
          ∀ i : Fin rs.length,
            (rs.get i).success = (envs i.val).relayerAccepts ∧
            (rs.get i).txHash
              = (if (envs i.val).relayerAccepts then (envs i.val).txHash
                 else "") := by
  rcases breq with ⟨ts, chain⟩
  cases chain with
  | avalanche =>
    cases hb : be.relayerAccepts with
    | false =>
      simp only [hb, Bool.false_eq_true, if_false]
      exact ⟨⟨"Transaction failed on chain", "TRANSACTION_FAILED",
              some .avalanche, none⟩, by simp [batchTransfer, hb], rfl⟩
    | true =>
      simp only [hb, if_true]
      refine ⟨ts.map (fun _ => execResult be), by simp [batchTransfer, hb],
              by simp, ?_⟩
      intro i
      constructor <;>
        simp [List.get_eq_getElem, List.getElem_map, execResult]
  | aptosTestnet =>
    refine ⟨aptosSeqResults ts envs, rfl, by simp [aptosSeqResults], ?_⟩
    intro i
    have hget : (aptosSeqResults ts envs).get i
        = (if (envs i.val).relayerAccepts then execResult (envs i.val)
           else ⟨false, "", none, none, none⟩) := by
      simp [List.get_eq_getElem, aptosSeqResults, List.getElem_map,
            List.getElem_range]
    rw [hget]
    cases ha : (envs i.val).relayerAccepts <;> simp [ha, execResult]

/-- C6 fails as stated: the EVM (Avalanche) adapter does not support balance
queries — `getBalance` fails with the documented `BALANCE_NOT_SUPPORTED`
code. -/
theorem avalanche_getBalance_not_supported :
    (adapterFor .avalanche).getBalance "0xa" ⟨[]⟩
      = .error (balanceNotSupportedError .avalanche) ∧
    (balanceNotSupportedError .avalanche).code = "BALANCE_NOT_SUPPORTED" :=
  ⟨rfl, rfl⟩

/-- C6 amended: both adapters implement the quote, prepare, execute and
validate capabilities; balance queries succeed on the Aptos adapter, while the
Avalanche adapter fails them with `BALANCE_NOT_SUPPORTED`. -/
theorem adapter_capabilities (c : SupportedChain) (req : TransferRequest)
    (qenv : QuoteEnv) (q : TransferQuote) (signed : SignedTransferData)
    (eenv : ExecEnv) (addr : String) (benv : BalanceEnv) :
    (adapterFor c).quote req qenv = getQuote req qenv ∧
    (adapterFor c).prepare req q = prepareTransfer req q ∧
    (adapterFor c).execute signed eenv = executeTransfer signed c eenv ∧
    (adapterFor c).validate addr = validateAddress c addr ∧
    (adapterFor .aptosTestnet).getBalance addr benv = .ok benv.balances ∧
    (adapterFor .avalanche).getBalance addr benv
      = .error (balanceNotSupportedError .avalanche) :=
  ⟨rfl, rfl, rfl, rfl, rfl, rfl⟩

/-- C7: with dynamic configuration enabled, resolution merges the static
configuration with a successful fetch and caches it at the fetch time; a
cached entry younger than the TTL is reused as is; and a failed fetch falls
back to the static configuration — with or without a cache entry, resolution
always yields a configuration. -/
theorem resolveChainConfig_spec (s : ChainConfig) (ttl now t : Nat)
    (d : DynamicChainConfig) (f : Option DynamicChainConfig) :
    (resolveChainConfig s true ttl now ⟨none⟩ none).1 = s ∧
    resolveChainConfig s true ttl now ⟨none⟩ (some d)
      = (mergeConfig s d, ⟨some (d, now)⟩) ∧
    (now < t + ttl →
      resolveChainConfig s true ttl now ⟨some (d, t)⟩ f
        = (mergeConfig s d, ⟨some (d, t)⟩)) ∧
    ((resolveChainConfig s true ttl now ⟨some (d, t)⟩ none).1 = s ∨
     (resolveChainConfig s true ttl now ⟨some (d, t)⟩ none).1
        = mergeConfig s d) := by
  refine ⟨rfl, rfl, ?_, ?_⟩
  · intro h
    simp [resolveChainConfig, h]
  · by_cases h : now < t + ttl
    · right
      simp [resolveChainConfig, h]
    · left
      simp [resolveChainConfig, h]

theorem resolveChainConfig_spec_witness :
    resolveChainConfig cfgW true 300000 1 ⟨some (dynW, 0)⟩ none
      = (mergeConfig cfgW dynW, ⟨some (dynW, 0)⟩) :=
  (resolveChainConfig_spec cfgW 300000 1 0 dynW none).2.2.1 (by decide)

/-! ### Claims about error objects -/

/-- Every failure of `getQuote` carries a nonempty code. -/
theorem getQuote_error_code_nonempty (req : TransferRequest) (env : QuoteEnv)
    (e : SmoothSendError) (h : getQuote req env = .error e) : e.code ≠ "" := by
  unfold getQuote at h
  repeat' split at h
  all_goals first
    | exact Except.noConfusion h
    | (injection h with h; subst h; cases req.chain <;> simp [quoteFailCode])

/-- The only failure of the signing step is the documented rejection code. -/
theorem signStep_error_code (senv : SignEnv) (req : TransferRequest)
    (sd : SignatureData) (e : SmoothSendError)
    (h : signStep senv req sd = .error e) : e.code = "SIGNATURE_REJECTED" := by
  unfold signStep at h
  split at h
  · exact Except.noConfusion h
  · injection h with h
    subst h
    rfl

/-- The only failure of the execute step is the documented failure code. -/
theorem executeTransfer_error_code (signed : SignedTransferData)
    (c : SupportedChain) (eenv : ExecEnv) (e : SmoothSendError)
    (h : executeTransfer signed c eenv = .error e) :
    e.code = "TRANSACTION_FAILED" := by
  unfold executeTransfer at h
  split at h
  · exact Except.noConfusion h
  · injection h with h
    subst h
    rfl

/-- Every failure of `transfer` carries a nonempty code. -/
theorem transfer_error_code_nonempty (req : TransferRequest) (qenv : QuoteEnv)
    (senv : SignEnv) (eenv : ExecEnv) (now : Nat) (st : SdkState)
    (e : SmoothSendError)
    (h : (transfer req qenv senv eenv now st).result = .error e) :
    e.code ≠ "" := by
  cases hq : getQuote req qenv with
  | error e' =>
    have he : e' = e := by simpa [transfer, hq] using h
    subst he
    exact getQuote_error_code_nonempty req qenv _ hq
  | ok q =>
    cases hs : signStep senv req (prepareTransfer req q) with
    | error e' =>
      have he : e' = e := by simpa [transfer, hq, hs] using h
      subst he
      rw [signStep_error_code senv req _ _ hs]
      decide
    | ok signed =>
      cases hx : executeTransfer signed req.chain eenv with
      | error e' =>
        have he : e' = e := by simpa [transfer, hq, hs, hx] using h
        subst he
        rw [executeTransfer_error_code signed req.chain eenv _ hx]
        decide
      | ok r => simp [transfer, hq, hs, hx] at h

/-- The only failure of `batchTransfer` is the documented on-chain failure. -/
theorem batchTransfer_error_code (breq : BatchTransferRequest) (be : ExecEnv)
    (envs : Nat → ExecEnv) (e : SmoothSendError)
    (h : batchTransfer breq be envs = .error e) :
    e.code = "TRANSACTION_FAILED" := by
  rcases breq with ⟨ts, chain⟩
  cases chain with
  | avalanche =>
    simp only [batchTransfer] at h
    split at h
    · exact Except.noConfusion h
    · injection h with h
      subst h
      rfl
  | aptosTestnet => simp [batchTransfer] at h

/-- The only failure of a balance query is the documented unsupported code. -/
theorem getBalance_error_code (c : SupportedChain) (addr : String)
    (benv : BalanceEnv) (e : SmoothSendError)
    (h : (adapterFor c).getBalance addr benv = .error e) :
    e.code = "BALANCE_NOT_SUPPORTED" := by
  cases c with
  | avalanche =>
    injection h with h
    subst h
    rfl
  | aptosTestnet => exact Except.noConfusion h

/-- C9: every error any modelled SDK operation raises is a `SmoothSendError`
(a structure with a string `code`, an optional `chain` and optional `details`,
which is what the operations' `Except SmoothSendError` result type enforces),
and no operation ever fails without a nonempty code. -/
theorem sdk_errors_carry_code (req : TransferRequest) (qenv : QuoteEnv)
    (senv : SignEnv) (eenv : ExecEnv) (now : Nat) (st : SdkState)
    (signed : SignedTransferData) (c : SupportedChain)
    (breq : BatchTransferRequest) (be : ExecEnv) (envs : Nat → ExecEnv)
    (addr : String) (benv : BalanceEnv) (e1 e2 e3 e4 e5 : SmoothSendError) :
    (getQuote req qenv = .error e1 → e1.code ≠ "") ∧
    ((transfer req qenv senv eenv now st).result = .error e2 → e2.code ≠ "") ∧
    (executeTransfer signed c eenv = .error e3 → e3.code ≠ "") ∧
    (batchTransfer breq be envs = .error e4 → e4.code ≠ "") ∧
    ((adapterFor c).getBalance addr benv = .error e5 → e5.code ≠ "") := by
  refine ⟨?_, ?_, ?_, ?_, ?_⟩
  · exact fun h => getQuote_error_code_nonempty req qenv e1 h
  · exact fun h => transfer_error_code_nonempty req qenv senv eenv now st e2 h
  · intro h
    rw [executeTransfer_error_code signed c eenv e3 h]
    decide
  · intro h
    rw [batchTransfer_error_code breq be envs e4 h]
    decide
  · intro h
    rw [getBalance_error_code c addr benv e5 h]
    decide

theorem sdk_errors_carry_code_witness :
    eNetW.code ≠ "" ∧ eNetW.code ≠ "" ∧ eTxW.code ≠ "" ∧ eTxW.code ≠ "" ∧
    (balanceNotSupportedError .avalanche).code ≠ "" :=
  have h := sdk_errors_carry_code reqW qenvDownW senvOkW eenvFailW 5 stW
    signedW .avalanche ⟨[reqW], .avalanche⟩ eenvFailW (fun _ => eenvOkW)
    "0xa" ⟨[]⟩ eNetW eNetW eTxW eTxW (balanceNotSupportedError .avalanche)
  ⟨h.1 rfl, h.2.1 rfl, h.2.2.1 rfl, h.2.2.2.1 rfl, h.2.2.2.2 rfl⟩

end SmoothSend
